import Mathlib

/-!
Verification of the `ToolExplorerContent` component of the Backstage
"explore" plugin (`workspaces/explore/plugins/explore/src/components/
ToolExplorerContent/ToolExplorerContent.tsx`).

The component is shallowly embedded:
* the URL search params (`URLSearchParams`) are an ordered list of
  key/value pairs; `getAll` returns all values for a key in order;
* React Router's `setSearchParams(init, { replace })` builds a fresh
  query from `init` (`createSearchParams`) and replaces the whole
  query string, replacing or pushing a history entry;
* the remote client `exploreApi.getTools` is a function from an optional
  request to a promise outcome, modelled as `Except ApiError` of a
  possibly-nullish response;
* `react-use`'s `useAsyncFn` state is `{loading, value, error}`; its
  resolution replaces the whole state object: on success
  `set({ value, loading: false })` (clearing `error`), on rejection
  `set({ error, loading: false })` (clearing `value`).
-/

namespace ToolExplorer

/-- `ExploreTool` descriptor from `@backstage-community/plugin-explore-common`:
title, description, url, optional image, optional tag list, optional single
lifecycle string. -/
structure ExploreTool where
  title : String
  description : String
  url : String
  image : Option String
  tags : Option (List String)
  lifecycle : Option String
deriving DecidableEq, Repr

/-- The `filter` field of a `GetExploreToolsRequest`. -/
structure GetExploreToolsFilter where
  tags : Option (List String)
  lifecycle : Option (List String)
deriving DecidableEq, Repr

/-- Request type of `exploreApi.getTools`. -/
structure GetExploreToolsRequest where
  filter : Option GetExploreToolsFilter
deriving DecidableEq, Repr

/-- Response of `exploreApi.getTools`; at runtime the `tools` field may be
absent, hence `Option`. -/
structure GetExploreToolsResponse where
  tools : Option (List ExploreTool)
deriving DecidableEq, Repr

/-- A generic transport error carried by a rejected promise. -/
structure ApiError where
  message : String
deriving DecidableEq, Repr

/-- The remote tool catalog client: `getTools` called either with no
argument (`none`) or with a request object.  A call either resolves
(`Except.ok`, possibly with a nullish response) or rejects
(`Except.error`). -/
def ExploreApi : Type :=
  Option GetExploreToolsRequest → Except ApiError (Option GetExploreToolsResponse)

/- ------------------------------------------------------------------
URL query model (`URLSearchParams` / React Router `useSearchParams`).
------------------------------------------------------------------ -/

/-- A URL query string: an ordered list of key/value pairs. -/
abbrev UrlQuery : Type := List (String × String)

/-- `URLSearchParams.getAll(k)`: all values stored under key `k`, in
order of appearance. -/
def getAll (k : String) : UrlQuery → List String
  | [] => []
  | p :: rest => if p.1 = k then p.2 :: getAll k rest else getAll k rest

/-- React Router's `createSearchParams` applied to an object whose values
are string arrays: each key contributes one pair per array element, in
order; an empty array contributes nothing. -/
def createSearchParams (init : List (String × List String)) : UrlQuery :=
  (init.map fun p => p.2.map fun v => (p.1, v)).flatten

/-- Browser history: the stack of earlier entries plus the current one.
Only the query part of each entry is modelled. -/
structure UrlHistory where
  past : List UrlQuery
  current : UrlQuery
deriving DecidableEq

/-- React Router's `setSearchParams(init, { replace })`: the whole query
is replaced by `createSearchParams init`; with `replace := true` the
current history entry is overwritten, otherwise a new entry is pushed. -/
def setSearchParams (h : UrlHistory) (init : List (String × List String))
    (replace : Bool) : UrlHistory :=
  if replace then { h with current := createSearchParams init }
  else { past := h.current :: h.past, current := createSearchParams init }

/-- The component's two selection sets (`filteredTags`,
`filteredLifecycle` React state). -/
structure FilterState where
  filteredTags : List String
  filteredLifecycle : List String
deriving DecidableEq, Repr

/-- The state the component can reach and mutate: its filter selections
plus the browser history it writes through `setSearchParams`. -/
structure ViewState where
  filters : FilterState
  history : UrlHistory
deriving DecidableEq

/-- Initial filter state: `useState(searchParams.getAll('tags'))` and
`useState(searchParams.getAll('lifecycle'))`. -/
def initializeFilters (q : UrlQuery) : FilterState :=
  { filteredTags := getAll "tags" q
    filteredLifecycle := getAll "lifecycle" q }

/-- `handleTagsChange`: `setFilteredTags(value)` then
`setSearchParams({ tags: value }, { replace: true })`. -/
def handleTagsChange (s : ViewState) (value : List String) : ViewState :=
  { filters := { s.filters with filteredTags := value }
    history := setSearchParams s.history [("tags", value)] true }

/-- `handleLifecycleChange`: `setFilteredLifecycle(value)` then
`setSearchParams({ lifecycle: value }, { replace: true })`. -/
def handleLifecycleChange (s : ViewState) (value : List String) : ViewState :=
  { filters := { s.filters with filteredLifecycle := value }
    history := setSearchParams s.history [("lifecycle", value)] true }

/-- Spec-side reading, for comparison with `initializeFilters`: the
multi-valued sequence stored under key `k` of a query, in order. -/
def valuesOf (k : String) (q : UrlQuery) : List String :=
  (q.filter fun p => p.1 = k).map fun p => p.2

/- ------------------------------------------------------------------
The two async fetchers.
------------------------------------------------------------------ -/

/-- The request object `fetchTools` builds:
`{ filter: { tags: filteredTags, lifecycle: filteredLifecycle } }`. -/
def toolsRequest (filteredTags filteredLifecycle : List String) :
    Option GetExploreToolsRequest :=
  some { filter := some { tags := some filteredTags
                          lifecycle := some filteredLifecycle } }

/-- The body of the `useAsyncFn` behind `[tools, fetchTools]`:
`(await exploreApi.getTools({ filter: { tags, lifecycle } }))?.tools`. -/
def fetchTools (api : ExploreApi) (filteredTags filteredLifecycle : List String) :
    Except ApiError (Option (List ExploreTool)) :=
  match api (toolsRequest filteredTags filteredLifecycle) with
  | .error e => .error e
  | .ok resp => .ok (resp.bind fun r => r.tools)

/-- `JS Set.add`: append the element unless already present (insertion
order is preserved; a re-added element keeps its first position). -/
def jsSetAdd (s : List String) (x : String) : List String :=
  if x ∈ s then s else s ++ [x]

/-- `Array.from(new Set(xs))`: iterate over `xs`, inserting each element
into the set, then list the set's elements in insertion order. -/
def jsSetFrom (xs : List String) : List String :=
  xs.foldl jsSetAdd []

/-- The derived filter options: `{ tags, lifecycles }`. -/
structure ToolOptions where
  tags : List String
  lifecycles : List String
deriving DecidableEq, Repr

/-- The pure part of `fetchTagsAndLifeCycles`, given a non-nullish tool
list `allTools`:
`uniqueTags = new Set(allTools.map(tool => tool.tags ?? []).flat())` and
`uniqueLifecycle = new Set(allTools.map(tool => tool.lifecycle ?? []).flat())`,
each returned via `Array.from`.  For `lifecycle`, `x ?? []` keeps a present
string and turns an absent one into `[]`, which `.flat()` erases — i.e.
`Option.toList` followed by flattening. -/
def computeOptionsFromTools (allTools : List ExploreTool) : ToolOptions :=
  { tags := jsSetFrom ((allTools.map fun tool => tool.tags.getD []).flatten)
    lifecycles := jsSetFrom ((allTools.map fun tool => tool.lifecycle.toList).flatten) }

/-- The body of the `useAsyncFn` behind
`[uniqueTagsAndLifecycle, fetchTagsAndLifeCycles]`:
`const allTools = (await exploreApi.getTools())?.tools;` — note the call
takes **no argument** — then either the empty fallback (when `allTools`
is nullish) or the de-duplicated options. -/
def fetchTagsAndLifeCycles (api : ExploreApi) : Except ApiError ToolOptions :=
  match api none with
  | .error e => .error e
  | .ok resp =>
    match resp.bind fun r => r.tools with
    | none => .ok { tags := [], lifecycles := [] }
    | some allTools => .ok (computeOptionsFromTools allTools)

/-- The `useEffect` that runs on every change of
`filteredTags`/`filteredLifecycle`: it triggers `fetchTools()` and
`fetchTagsAndLifeCycles()`; the pair of outcomes. -/
def refreshView (api : ExploreApi) (s : FilterState) :
    Except ApiError (Option (List ExploreTool)) × Except ApiError ToolOptions :=
  (fetchTools api s.filteredTags s.filteredLifecycle, fetchTagsAndLifeCycles api)

/- ------------------------------------------------------------------
`react-use` `useAsyncFn` loader state.
------------------------------------------------------------------ -/

/-- The observable state of a `useAsyncFn` loader: `{loading, value,
error}`.  `value` is `none` both before the first success and when the
resolved value itself was `undefined`. -/
structure AsyncState (α : Type) where
  loading : Bool
  value : Option α
  error : Option ApiError
deriving DecidableEq

/-- Starting a call: `set(prevState => ({ ...prevState, loading: true }))` —
`value` and `error` are retained while the fetch is in flight. -/
def asyncStart {α : Type} (s : AsyncState α) : AsyncState α :=
  { s with loading := true }

/-- Settling a call: `useAsyncFn` replaces the whole state object — on
success `set({ value, loading: false })` (so `error` is cleared), on
rejection `set({ error, loading: false })` (so `value` is cleared).  The
rejection is consumed here: the promise returned to the caller resolves
either way, no exception propagates. -/
def asyncResolve {α : Type} (_prev : AsyncState α)
    (outcome : Except ApiError (Option α)) : AsyncState α :=
  match outcome with
  | .ok v => { loading := false, value := v, error := none }
  | .error e => { loading := false, value := none, error := some e }

/-- The tools loader's state after its fetch settles. -/
def toolsStateAfter (prev : AsyncState (List ExploreTool)) (api : ExploreApi)
    (filteredTags filteredLifecycle : List String) : AsyncState (List ExploreTool) :=
  asyncResolve prev (fetchTools api filteredTags filteredLifecycle)

/-- The options loader's state after its fetch settles (its body never
resolves with `undefined`, hence the `.map some`). -/
def optionsStateAfter (prev : AsyncState ToolOptions) (api : ExploreApi) :
    AsyncState ToolOptions :=
  asyncResolve prev ((fetchTagsAndLifeCycles api).map some)

/-- Options fed to the tags `Autocomplete`:
`uniqueTagsAndLifecycle.value?.tags ?? []`. -/
def displayedTagOptions (s : AsyncState ToolOptions) : List String :=
  match s.value with
  | some o => o.tags
  | none => []

/-- Options fed to the lifecycle `Autocomplete`:
`uniqueTagsAndLifecycle.value?.lifecycles ?? []`. -/
def displayedLifecycleOptions (s : AsyncState ToolOptions) : List String :=
  match s.value with
  | some o => o.lifecycles
  | none => []

/- ------------------------------------------------------------------
The rendered status area.
------------------------------------------------------------------ -/

/-- What the status `Grid` cell shows: the `Progress` bar, the
`"Failed to load tools"` `WarningPanel`, the `"No tools found"`
`WarningPanel`, and the card grid (`some` of the card list when the
`Body` is rendered, `none` when it is not). -/
structure RenderedStatus where
  progress : Bool
  failureWarning : Bool
  noToolsWarning : Bool
  cardGrid : Option (List ExploreTool)
deriving DecidableEq

/-- The four conditional renders, translated clause by clause:
`(tools.loading || uniqueTagsAndLifecycle.loading) && <Progress />`;
`(tools.error || uniqueTagsAndLifecycle.error) && <WarningPanel title="Failed to load tools" />`;
`tools.value && tools.value.length === 0 && <WarningPanel title="No tools found" />`;
`tools.value && <Body tools={tools.value} />`.
In JS an empty array is truthy, so `tools.value &&` succeeds on `[]` and
fails only on `undefined`. -/
def renderStatus (tools : AsyncState (List ExploreTool))
    (uniq : AsyncState ToolOptions) : RenderedStatus :=
  { progress := tools.loading || uniq.loading
    failureWarning := tools.error.isSome || uniq.error.isSome
    noToolsWarning :=
      match tools.value with
      | some v => v.length == 0
      | none => false
    cardGrid := tools.value }

/- ------------------------------------------------------------------
First-seen de-duplication: spec-side definition and its agreement with
the JS `Set` construction.
------------------------------------------------------------------ -/

/-- Spec-side definition ("de-duplicates preserving first-seen order"):
keep each element at its first occurrence and drop every later
duplicate. -/
def firstSeenDedup : List String → List String
  | [] => []
  | x :: xs => x :: (firstSeenDedup xs).filter fun a => decide (a ≠ x)

/-- "Calling the Remote Tool Catalog Client with no filter argument at
all" and taking `?.tools` of the outcome — the comparison point of the
spec's no-filter equivalence. -/
def clientNoFilterTools (api : ExploreApi) : Except ApiError (Option (List ExploreTool)) :=
  match api none with
  | .error e => .error e
  | .ok resp => .ok (resp.bind fun r => r.tools)

/- Concrete data for witnesses and counterexamples. -/

/-- A concrete tool. -/
def demoTool : ExploreTool :=
  { title := "Tech Radar"
    description := "Tech Radar is a list of technologies"
    url := "/tech-radar"
    image := none
    tags := some ["standards", "landscape"]
    lifecycle := some "experimental" }

/-- A second concrete tool, without a lifecycle. -/
def demoTool2 : ExploreTool :=
  { title := "Lighthouse"
    description := "benchmarking and best practices"
    url := "/lighthouse"
    image := none
    tags := some ["web", "standards"]
    lifecycle := none }

/-- A client that always resolves with the two demo tools. -/
def demoApi : ExploreApi := fun _ => .ok (some { tools := some [demoTool, demoTool2] })

/-- A client that agrees with `demoApi` on the no-argument call but
rejects every other request. -/
def demoApiVariant : ExploreApi := fun r =>
  match r with
  | none => .ok (some { tools := some [demoTool, demoTool2] })
  | some _ => .error { message := "filtered call" }

/-- A client that always resolves with an empty tool list. -/
def emptyListApi : ExploreApi := fun _ => .ok (some { tools := some [] })

/-- A client that always resolves with a nullish response. -/
def nullishApi : ExploreApi := fun _ => .ok none

/-- A concrete transport error. -/
def demoError : ApiError := { message := "network" }

/-- A client that always rejects. -/
def failingApi : ExploreApi := fun _ => .error demoError

/-- A loader state before anything resolved. -/
def initialToolsState : AsyncState (List ExploreTool) :=
  { loading := false, value := none, error := none }

/-- An options-loader state before anything resolved. -/
def initialOptionsState : AsyncState ToolOptions :=
  { loading := false, value := none, error := none }

/-- An options-loader state holding a previously computed value. -/
def prevOptionsState : AsyncState ToolOptions :=
  { loading := false
    value := some { tags := ["web"], lifecycles := ["experimental"] }
    error := none }

/-- A tools-loader state holding a previously loaded list. -/
def prevToolsState : AsyncState (List ExploreTool) :=
  { loading := false, value := some [demoTool], error := none }

/-- A view state whose URL holds a lifecycle selection. -/
def demoViewState : ViewState :=
  { filters := { filteredTags := [], filteredLifecycle := ["experimental"] }
    history := { past := [], current := [("lifecycle", "experimental")] } }

theorem filter_ne_filter_not_mem {x : String} {acc : List String} (hx : x ∈ acc)
    (l : List String) :
    (l.filter fun a => decide (a ≠ x)).filter (fun a => decide (a ∉ acc))
      = l.filter fun a => decide (a ∉ acc) := by
  rw [List.filter_filter]
  refine List.filter_congr fun a _ => ?_
  by_cases hb : a ∈ acc
  · simp [hb]
  · have hax : a ≠ x := fun h => hb (h ▸ hx)
    simp [hb, hax]

theorem filter_not_mem_append (acc : List String) (x : String) (l : List String) :
    l.filter (fun a => decide (a ∉ acc ++ [x]))
      = (l.filter fun a => decide (a ≠ x)).filter fun a => decide (a ∉ acc) := by
  induction l with
  | nil => rfl
  | cons b l ih =>
    by_cases hbx : b = x <;> by_cases hb : b ∈ acc <;>
      simp [List.filter_cons, hbx, hb, ih, List.mem_append]

theorem foldl_jsSetAdd (xs : List String) : ∀ acc : List String,
    xs.foldl jsSetAdd acc = acc ++ (firstSeenDedup xs).filter fun a => decide (a ∉ acc) := by
  induction xs with
  | nil => intro acc; simp [firstSeenDedup]
  | cons x xs ih =>
    intro acc
    rw [List.foldl_cons, ih (jsSetAdd acc x)]
    by_cases hx : x ∈ acc
    · have h1 : jsSetAdd acc x = acc := by simp [jsSetAdd, hx]
      rw [h1]
      simp only [firstSeenDedup, List.filter_cons]
      have hdx : decide (x ∉ acc) = false := by simp [hx]
      rw [hdx]
      simp only [Bool.false_eq_true, if_false]
      rw [filter_ne_filter_not_mem hx]
    · have h1 : jsSetAdd acc x = acc ++ [x] := by simp [jsSetAdd, hx]
      rw [h1]
      simp only [firstSeenDedup, List.filter_cons]
      have hdx : decide (x ∉ acc) = true := by simp [hx]
      rw [hdx]
      simp only [if_true]
      rw [filter_not_mem_append acc x, List.append_assoc]
      rfl

theorem jsSetFrom_eq_firstSeenDedup (xs : List String) :
    jsSetFrom xs = firstSeenDedup xs := by
  have h := foldl_jsSetAdd xs []
  simpa [jsSetFrom] using h

theorem firstSeenDedup_nodup (xs : List String) : (firstSeenDedup xs).Nodup := by
  induction xs with
  | nil => simp [firstSeenDedup]
  | cons x xs ih =>
    simp only [firstSeenDedup, List.nodup_cons]
    refine ⟨fun hmem => ?_, ih.filter _⟩
    rw [List.mem_filter] at hmem
    simp at hmem

theorem firstSeenDedup_sublist (xs : List String) : (firstSeenDedup xs).Sublist xs := by
  induction xs with
  | nil => simp [firstSeenDedup]
  | cons x xs ih =>
    exact List.Sublist.cons₂ x ((List.filter_sublist _).trans ih)

theorem mem_firstSeenDedup (a : String) (xs : List String) :
    a ∈ firstSeenDedup xs ↔ a ∈ xs := by
  induction xs with
  | nil => simp [firstSeenDedup]
  | cons x xs ih =>
    by_cases hax : a = x
    · simp [firstSeenDedup, hax]
    · simp [firstSeenDedup, List.mem_filter, hax, ih]

theorem flatten_toList_eq_filterMap (ts : List ExploreTool) :
    (ts.map fun tool => tool.lifecycle.toList).flatten
      = ts.filterMap fun tool => tool.lifecycle := by
  induction ts with
  | nil => rfl
  | cons t ts ih =>
    cases h : t.lifecycle <;> simp [List.filterMap_cons, h, ih]

/- ------------------------------------------------------------------
URL query lemmas.
------------------------------------------------------------------ -/

theorem getAll_eq_valuesOf (k : String) (q : UrlQuery) : getAll k q = valuesOf k q := by
  induction q with
  | nil => rfl
  | cons p q ih =>
    by_cases h : p.1 = k <;> simp [getAll, valuesOf, List.filter_cons, h, ih]

theorem getAll_map_same (k : String) (v : List String) :
    getAll k (v.map fun x => (k, x)) = v := by
  induction v with
  | nil => rfl
  | cons x v ih => simp [getAll, ih]

theorem getAll_map_other {k kq : String} (h : k ≠ kq) (v : List String) :
    getAll k (v.map fun x => (kq, x)) = [] := by
  induction v with
  | nil => rfl
  | cons x v ih => simp [getAll, Ne.symm h, ih]

theorem getAll_absent {k : String} {q : UrlQuery} (h : ∀ p ∈ q, p.1 ≠ k) :
    getAll k q = [] := by
  induction q with
  | nil => rfl
  | cons p q ih =>
    have hp := h p (List.mem_cons_self p q)
    simp [getAll, hp, ih fun r hr => h r (List.mem_cons_of_mem p hr)]

theorem handleTagsChange_current (s : ViewState) (v : List String) :
    (handleTagsChange s v).history.current = v.map fun x => ("tags", x) := by
  simp [handleTagsChange, setSearchParams, createSearchParams]

theorem handleLifecycleChange_current (s : ViewState) (v : List String) :
    (handleLifecycleChange s v).history.current = v.map fun x => ("lifecycle", x) := by
  simp [handleLifecycleChange, setSearchParams, createSearchParams]

/- ------------------------------------------------------------------
Claim theorems.
------------------------------------------------------------------ -/

/-- **C1** (counterexample): `handleTagsChange` does not leave the
other query keys unchanged.  `setSearchParams({ tags: value },
{ replace: true })` builds the new query from the `{ tags }` object
alone, so a URL holding `lifecycle=experimental` loses that key. -/
theorem handleTagsChange_drops_other_keys :
    ¬ (getAll "lifecycle" (handleTagsChange demoViewState ["web"]).history.current
        = getAll "lifecycle" demoViewState.history.current) := by
  decide

/-- **C1** (amended): `setTags v` rewrites the whole query so that the
"tags" key holds exactly `v` (an empty `v` clears the query), replacing
the current history entry (the past stack is untouched) — but every
other key, in particular "lifecycle", reads back empty afterwards
because the new query is built from the `{ tags }` object alone.
`setLifecycle` is symmetric, dropping "tags". -/
theorem setTags_setLifecycle_rewrite_query (s : ViewState) (v : List String) :
    (handleTagsChange s v).filters.filteredTags = v
    ∧ getAll "tags" (handleTagsChange s v).history.current = v
    ∧ (∀ k, k ≠ "tags" → getAll k (handleTagsChange s v).history.current = [])
    ∧ (handleTagsChange s v).history.past = s.history.past
    ∧ (handleLifecycleChange s v).filters.filteredLifecycle = v
    ∧ getAll "lifecycle" (handleLifecycleChange s v).history.current = v
    ∧ (∀ k, k ≠ "lifecycle" → getAll k (handleLifecycleChange s v).history.current = [])
    ∧ (handleLifecycleChange s v).history.past = s.history.past := by
  refine ⟨rfl, ?_, ?_, ?_, rfl, ?_, ?_, ?_⟩
  · rw [handleTagsChange_current]; exact getAll_map_same _ v
  · intro k hk; rw [handleTagsChange_current]; exact getAll_map_other hk v
  · simp [handleTagsChange, setSearchParams]
  · rw [handleLifecycleChange_current]; exact getAll_map_same _ v
  · intro k hk; rw [handleLifecycleChange_current]; exact getAll_map_other hk v
  · simp [handleLifecycleChange, setSearchParams]

/-- Witness for `setTags_setLifecycle_rewrite_query` at a concrete
state: the "tags" key reads back `["web"]` and the "lifecycle" key,
previously `["experimental"]`, reads back empty. -/
theorem setTags_setLifecycle_rewrite_query_witness :
    getAll "tags" (handleTagsChange demoViewState ["web"]).history.current = ["web"]
    ∧ getAll "lifecycle" (handleTagsChange demoViewState ["web"]).history.current = [] :=
  ⟨(setTags_setLifecycle_rewrite_query demoViewState ["web"]).2.1,
   (setTags_setLifecycle_rewrite_query demoViewState ["web"]).2.2.1 "lifecycle" (by decide)⟩

/-- **C2** (confirmed): the initial filter state reads exactly the
multi-valued sequences stored under "tags" and "lifecycle" (in the
spec-side `valuesOf` form), absent keys yield empty selections, and
`setTags x` followed by re-reading the URL and re-initializing yields
selected tags exactly `x`, for every `x` including `[]`. -/
theorem initializeFilters_roundtrip (q : UrlQuery) (s : ViewState) (x : List String) :
    (initializeFilters q).filteredTags = valuesOf "tags" q
    ∧ (initializeFilters q).filteredLifecycle = valuesOf "lifecycle" q
    ∧ ((∀ p ∈ q, p.1 ≠ "tags") → (initializeFilters q).filteredTags = [])
    ∧ ((∀ p ∈ q, p.1 ≠ "lifecycle") → (initializeFilters q).filteredLifecycle = [])
    ∧ (initializeFilters (handleTagsChange s x).history.current).filteredTags = x := by
  refine ⟨getAll_eq_valuesOf _ q, getAll_eq_valuesOf _ q, ?_, ?_, ?_⟩
  · intro h; exact getAll_absent h
  · intro h; exact getAll_absent h
  · show getAll "tags" (handleTagsChange s x).history.current = x
    rw [handleTagsChange_current]; exact getAll_map_same _ x

/-- Witness for `initializeFilters_roundtrip`: a URL holding only a
lifecycle key yields no selected tags, and a `setTags` round-trip
through the URL restores the selection. -/
theorem initializeFilters_roundtrip_witness :
    (initializeFilters [("lifecycle", "experimental")]).filteredTags = []
    ∧ (initializeFilters
        (handleTagsChange demoViewState ["standards", "web"]).history.current).filteredTags
      = ["standards", "web"] :=
  ⟨(initializeFilters_roundtrip [("lifecycle", "experimental")] demoViewState []).2.2.1
      (by decide),
   (initializeFilters_roundtrip [] demoViewState ["standards", "web"]).2.2.2.2⟩

/-- **C3** (confirmed): the derived options are the flattening of the
tools' tag sequences, first-seen de-duplicated in the list's iteration
order, and the tools' single lifecycle values (tools without one
skipped), de-duplicated the same way; both outputs are duplicate-free,
are order-preserving subsequences of those flattenings, and contain
exactly their values. -/
theorem computeOptions_first_seen_dedup (allTools : List ExploreTool) :
    (computeOptionsFromTools allTools).tags
        = firstSeenDedup ((allTools.map fun tool => tool.tags.getD []).flatten)
    ∧ (computeOptionsFromTools allTools).lifecycles
        = firstSeenDedup (allTools.filterMap fun tool => tool.lifecycle)
    ∧ (computeOptionsFromTools allTools).tags.Sublist
        ((allTools.map fun tool => tool.tags.getD []).flatten)
    ∧ (computeOptionsFromTools allTools).lifecycles.Sublist
        (allTools.filterMap fun tool => tool.lifecycle)
    ∧ (∀ a, a ∈ (computeOptionsFromTools allTools).tags
        ↔ a ∈ (allTools.map fun tool => tool.tags.getD []).flatten)
    ∧ (∀ a, a ∈ (computeOptionsFromTools allTools).lifecycles
        ↔ a ∈ allTools.filterMap fun tool => tool.lifecycle)
    ∧ (computeOptionsFromTools allTools).tags.Nodup
    ∧ (computeOptionsFromTools allTools).lifecycles.Nodup := by
  have ht : (computeOptionsFromTools allTools).tags
      = firstSeenDedup ((allTools.map fun tool => tool.tags.getD []).flatten) := by
    simp [computeOptionsFromTools, jsSetFrom_eq_firstSeenDedup]
  have hl : (computeOptionsFromTools allTools).lifecycles
      = firstSeenDedup (allTools.filterMap fun tool => tool.lifecycle) := by
    simp [computeOptionsFromTools, jsSetFrom_eq_firstSeenDedup,
      flatten_toList_eq_filterMap]
  refine ⟨ht, hl, ?_, ?_, ?_, ?_, ?_, ?_⟩
  · rw [ht]; exact firstSeenDedup_sublist _
  · rw [hl]; exact firstSeenDedup_sublist _
  · intro a; rw [ht]; exact mem_firstSeenDedup a _
  · intro a; rw [hl]; exact mem_firstSeenDedup a _
  · rw [ht]; exact firstSeenDedup_nodup _
  · rw [hl]; exact firstSeenDedup_nodup _

/-- **C4** (confirmed): the options refresh triggered by the effect is
filter-independent — its outcome is the same for any two filter
selections, and it consults the client only through the no-argument
(`getTools()`) call. -/
theorem options_fetch_ignores_selections (api api1 api2 : ExploreApi)
    (s s1 s2 : FilterState) (h : api1 none = api2 none) :
    (refreshView api s1).2 = (refreshView api s2).2
    ∧ (refreshView api1 s).2 = (refreshView api2 s).2 := by
  refine ⟨rfl, ?_⟩
  simp only [refreshView, fetchTagsAndLifeCycles, h]

/-- Witness for `options_fetch_ignores_selections`: `demoApi` and
`demoApiVariant` disagree on every filtered request yet agree on the
no-argument call, and the options outcome ignores the selections. -/
theorem options_fetch_ignores_selections_witness :
    (refreshView demoApi { filteredTags := ["web"], filteredLifecycle := [] }).2
      = (refreshView demoApi { filteredTags := [], filteredLifecycle := ["experimental"] }).2
    ∧ (refreshView demoApi { filteredTags := ["web"], filteredLifecycle := [] }).2
      = (refreshView demoApiVariant { filteredTags := ["web"], filteredLifecycle := [] }).2 :=
  options_fetch_ignores_selections demoApi demoApi demoApiVariant
    { filteredTags := ["web"], filteredLifecycle := [] }
    { filteredTags := ["web"], filteredLifecycle := [] }
    { filteredTags := [], filteredLifecycle := ["experimental"] } rfl

/-- **C5** (counterexample): when the options fetch fails, `useAsyncFn`
replaces the whole loader state by `{error, loading: false}`, so the
displayed option sets do **not** remain at their previously computed
value — they reset to empty. -/
theorem options_failure_resets_displayed :
    prevOptionsState.value.isSome = true
    ∧ displayedTagOptions prevOptionsState = ["web"]
    ∧ ¬ (displayedTagOptions (optionsStateAfter prevOptionsState failingApi)
          = displayedTagOptions prevOptionsState) := by
  decide

/-- **C5** (amended): if the unfiltered fetch inside the options
computation fails, no exception propagates — the rejection is absorbed
into the loader failure state, whose error flag drives the warning — but
the displayed option sets become **empty** regardless of any previously
computed value, because the failure resolution clears `value`. -/
theorem options_failure_state (prev : AsyncState ToolOptions) (api : ExploreApi)
    (e : ApiError) (tools : AsyncState (List ExploreTool))
    (h : api none = .error e) :
    fetchTagsAndLifeCycles api = .error e
    ∧ (optionsStateAfter prev api).error = some e
    ∧ (optionsStateAfter prev api).loading = false
    ∧ displayedTagOptions (optionsStateAfter prev api) = []
    ∧ displayedLifecycleOptions (optionsStateAfter prev api) = []
    ∧ (renderStatus tools (optionsStateAfter prev api)).failureWarning = true := by
  have hf : fetchTagsAndLifeCycles api = .error e := by
    simp [fetchTagsAndLifeCycles, h]
  have hs : optionsStateAfter prev api
      = { loading := false, value := none, error := some e } := by
    simp [optionsStateAfter, asyncResolve, hf, Except.map]
  refine ⟨hf, ?_, ?_, ?_, ?_, ?_⟩ <;>
    rw [hs] <;> simp [displayedTagOptions, displayedLifecycleOptions, renderStatus]

/-- Witness for `options_failure_state` with a rejecting client and a
previously computed options value. -/
theorem options_failure_state_witness :
    fetchTagsAndLifeCycles failingApi = .error demoError
    ∧ displayedTagOptions (optionsStateAfter prevOptionsState failingApi) = [] :=
  ⟨(options_failure_state prevOptionsState failingApi demoError initialToolsState rfl).1,
   (options_failure_state prevOptionsState failingApi demoError initialToolsState
      rfl).2.2.2.1⟩

/-- **C6** (confirmed): `fetchTools` always hands the client the filter
object holding the current selections (its outcome depends on the
client only at `toolsRequest tags lifecycle`), and under the hypothesis
that the client treats the empty filter like the absent argument,
calling it with both selections empty gives the same result as the
no-argument client call. -/
theorem loadTools_filter_and_no_filter_equiv (api api1 api2 : ExploreApi)
    (tags lifecycle : List String)
    (hdep : api1 (toolsRequest tags lifecycle) = api2 (toolsRequest tags lifecycle))
    (hempty : api (toolsRequest [] []) = api none) :
    fetchTools api1 tags lifecycle = fetchTools api2 tags lifecycle
    ∧ fetchTools api [] [] = clientNoFilterTools api := by
  constructor
  · simp only [fetchTools, hdep]
  · simp only [fetchTools, clientNoFilterTools, hempty]

/-- Witness for `loadTools_filter_and_no_filter_equiv` with a client
that honors the empty-filter contract. -/
theorem loadTools_filter_and_no_filter_equiv_witness :
    fetchTools demoApi ["web"] [] = fetchTools demoApi ["web"] []
    ∧ fetchTools demoApi [] [] = clientNoFilterTools demoApi :=
  loadTools_filter_and_no_filter_equiv demoApi demoApi demoApi ["web"] [] rfl rfl

/-- **C7** (counterexample): on a successful fetch with zero tools the
"No tools found" panel shows, but the claim's "no card grid renders"
fails — the grid is rendered (with zero cards), because an empty array
is truthy in JS and `tools.value && <Body/>` fires. -/
theorem empty_result_grid_rendered :
    (renderStatus (toolsStateAfter initialToolsState emptyListApi [] [])
        initialOptionsState).noToolsWarning = true
    ∧ ¬ ((renderStatus (toolsStateAfter initialToolsState emptyListApi [] [])
        initialOptionsState).cardGrid = none) := by
  decide

/-- **C7** (amended): on a successful fetch with zero tools the "No
tools found" panel shows, no failure warning does (when the options
loader holds no error), and the card grid is rendered with zero cards;
the status area depends on the options loader only through its
`loading` and `error` fields, so an empty derived-options value can
trigger no indicator. -/
theorem empty_result_indicators (prev : AsyncState (List ExploreTool))
    (api : ExploreApi) (tags lifecycle : List String) (uniq : AsyncState ToolOptions)
    (h : fetchTools api tags lifecycle = .ok (some []))
    (hu : uniq.error = none) :
    (renderStatus (toolsStateAfter prev api tags lifecycle) uniq).noToolsWarning = true
    ∧ (renderStatus (toolsStateAfter prev api tags lifecycle) uniq).failureWarning = false
    ∧ (renderStatus (toolsStateAfter prev api tags lifecycle) uniq).cardGrid = some []
    ∧ ∀ (ts : AsyncState (List ExploreTool)) (u1 u2 : AsyncState ToolOptions),
        u1.error = u2.error → u1.loading = u2.loading →
        renderStatus ts u1 = renderStatus ts u2 := by
  have hts : toolsStateAfter prev api tags lifecycle
      = { loading := false, value := some [], error := none } := by
    simp [toolsStateAfter, asyncResolve, h]
  refine ⟨?_, ?_, ?_, ?_⟩
  · rw [hts]; simp [renderStatus]
  · rw [hts]; simp [renderStatus, hu]
  · rw [hts]; simp [renderStatus]
  · intro ts u1 u2 he hl
    simp [renderStatus, he, hl]

/-- Witness for `empty_result_indicators` with a client resolving an
empty list. -/
theorem empty_result_indicators_witness :
    (renderStatus (toolsStateAfter initialToolsState emptyListApi ["web"] [])
        initialOptionsState).noToolsWarning = true
    ∧ (renderStatus (toolsStateAfter initialToolsState emptyListApi ["web"] [])
        initialOptionsState).cardGrid = some [] :=
  ⟨(empty_result_indicators initialToolsState emptyListApi ["web"] []
      initialOptionsState rfl rfl).1,
   (empty_result_indicators initialToolsState emptyListApi ["web"] []
      initialOptionsState rfl rfl).2.2.1⟩

/-- **C8** (confirmed): when the catalog fetch rejects, the loader state
becomes `{error, loading: false}` with no value, so the failure warning
shows, no card grid and no empty-result panel render — in particular a
previously loaded list (`prev`) is not shown alongside the warning — and
in general the warning is visible exactly when at least one of the two
loaders holds an error. -/
theorem reject_warning_no_list (prev : AsyncState (List ExploreTool))
    (api : ExploreApi) (tags lifecycle : List String) (e : ApiError)
    (uniq : AsyncState ToolOptions)
    (h : api (toolsRequest tags lifecycle) = .error e) :
    toolsStateAfter prev api tags lifecycle
        = { loading := false, value := none, error := some e }
    ∧ (renderStatus (toolsStateAfter prev api tags lifecycle) uniq).failureWarning = true
    ∧ (renderStatus (toolsStateAfter prev api tags lifecycle) uniq).cardGrid = none
    ∧ (renderStatus (toolsStateAfter prev api tags lifecycle) uniq).noToolsWarning = false
    ∧ ∀ (ts : AsyncState (List ExploreTool)) (u : AsyncState ToolOptions),
        (renderStatus ts u).failureWarning = (ts.error.isSome || u.error.isSome) := by
  have hts : toolsStateAfter prev api tags lifecycle
      = { loading := false, value := none, error := some e } := by
    simp [toolsStateAfter, asyncResolve, fetchTools, h]
  refine ⟨hts, ?_, ?_, ?_, fun ts u => rfl⟩ <;> rw [hts] <;> simp [renderStatus]

/-- Witness for `reject_warning_no_list`: a rejecting client and a
loader that previously held a non-empty list. -/
theorem reject_warning_no_list_witness :
    (renderStatus (toolsStateAfter prevToolsState failingApi ["web"] [])
        initialOptionsState).failureWarning = true
    ∧ (renderStatus (toolsStateAfter prevToolsState failingApi ["web"] [])
        initialOptionsState).cardGrid = none :=
  ⟨(reject_warning_no_list prevToolsState failingApi ["web"] [] demoError
      initialOptionsState rfl).2.1,
   (reject_warning_no_list prevToolsState failingApi ["web"] [] demoError
      initialOptionsState rfl).2.2.1⟩

/-- **C9** (confirmed): a nullish `getTools()` response (or one whose
`tools` field is absent) makes the options computation return the
`{tags: [], lifecycles: []}` fallback successfully; the loader ends in
a success state with that value, not in the failure state. -/
theorem nullish_options_response_empty (api : ExploreApi)
    (resp : Option GetExploreToolsResponse) (prev : AsyncState ToolOptions)
    (h : api none = .ok resp) (hn : (resp.bind fun r => r.tools) = none) :
    fetchTagsAndLifeCycles api = .ok { tags := [], lifecycles := [] }
    ∧ (optionsStateAfter prev api).error = none
    ∧ (optionsStateAfter prev api).value = some { tags := [], lifecycles := [] } := by
  have hf : fetchTagsAndLifeCycles api = .ok { tags := [], lifecycles := [] } := by
    simp [fetchTagsAndLifeCycles, h, hn]
  have hs : optionsStateAfter prev api
      = { loading := false, value := some { tags := [], lifecycles := [] }, error := none } := by
    simp [optionsStateAfter, asyncResolve, hf, Except.map]
  exact ⟨hf, by rw [hs], by rw [hs]⟩

/-- Witness for `nullish_options_response_empty` with a client that
resolves with a nullish response. -/
theorem nullish_options_response_empty_witness :
    fetchTagsAndLifeCycles nullishApi = .ok { tags := [], lifecycles := [] }
    ∧ (optionsStateAfter initialOptionsState nullishApi).error = none :=
  ⟨(nullish_options_response_empty nullishApi none initialOptionsState rfl rfl).1,
   (nullish_options_response_empty nullishApi none initialOptionsState rfl rfl).2.1⟩

/-- **C10** (confirmed): when the filtered fetch resolves with a nullish
response, `fetchTools` succeeds with an undefined value, and the view
then renders neither the "No tools found" panel, nor the card grid, nor
a failure warning attributable to this loader (the warning reduces to
the options loader's error alone). -/
theorem nullish_tools_response_renders_nothing (api : ExploreApi)
    (tags lifecycle : List String) (prev : AsyncState (List ExploreTool))
    (uniq : AsyncState ToolOptions)
    (h : api (toolsRequest tags lifecycle) = .ok none) :
    fetchTools api tags lifecycle = .ok none
    ∧ toolsStateAfter prev api tags lifecycle
        = { loading := false, value := none, error := none }
    ∧ (renderStatus (toolsStateAfter prev api tags lifecycle) uniq).noToolsWarning = false
    ∧ (renderStatus (toolsStateAfter prev api tags lifecycle) uniq).cardGrid = none
    ∧ (renderStatus (toolsStateAfter prev api tags lifecycle) uniq).failureWarning
        = uniq.error.isSome := by
  have hf : fetchTools api tags lifecycle = .ok none := by
    simp [fetchTools, h]
  have hts : toolsStateAfter prev api tags lifecycle
      = { loading := false, value := none, error := none } := by
    simp [toolsStateAfter, asyncResolve, hf]
  refine ⟨hf, hts, ?_, ?_, ?_⟩ <;> rw [hts] <;> simp [renderStatus]

/-- Witness for `nullish_tools_response_renders_nothing` with a client
resolving the filtered call with a nullish response. -/
theorem nullish_tools_response_renders_nothing_witness :
    fetchTools nullishApi ["web"] [] = .ok none
    ∧ (renderStatus (toolsStateAfter initialToolsState nullishApi ["web"] [])
        initialOptionsState).cardGrid = none :=
  ⟨(nullish_tools_response_renders_nothing nullishApi ["web"] [] initialToolsState
      initialOptionsState rfl).1,
   (nullish_tools_response_renders_nothing nullishApi ["web"] [] initialToolsState
      initialOptionsState rfl).2.2.2.1⟩

end ToolExplorer
